import Mathlib

/-!
Verification of `slice.py` (ObjectSlice): a shallow embedding of the slicing
orchestration — height-sequence computation (`set_slices`), template
composition (`_make_slice_file`), output-directory preparation
(`_make_output_dir`), job construction and parallel dispatch
(`execute_slice` / `pool.map`), and final cleanup — together with theorems
settling the specification's claims about it.

The source is Python 2: integer `/` is floor division (`Int.fdiv`), the
builtin `range` returns a list, and exceptions are modelled by the `PyErr`
type below.  External effects (filesystem, subprocess launch) are modelled
by explicit oracles passed in as a `World`.
-/

set_option maxRecDepth 16384

namespace ObjectSlice

/-- Exceptions that the embedded fragments of `slice.py` can raise.
`runtimeError` models the explicit `raise RuntimeError()` in `set_slices`
(the code's configuration-error signal); `typeError` models arithmetic on
`None`; `zeroDivisionError` models integer division by zero; `valueError`
models `range(..., 0)` and `string.Template` rejecting an invalid
placeholder; `keyError` models `string.Template.substitute` meeting a
placeholder with no mapping entry; `osError` models `OSError` from
`os.makedirs`, `os.remove`, or a failed `subprocess` launch. -/
inductive PyErr where
  | typeError
  | zeroDivisionError
  | valueError
  | keyError
  | runtimeError
  | osError
  deriving DecidableEq, Repr

deriving instance DecidableEq for Except

/-- Number of elements of Python's `range(start, stop, step)` for a nonzero
step: `max 0 ⌈(stop - start) / step⌉`, expressed with floor division. -/
def pyRangeLen (start stop step : Int) : Nat :=
  if 0 < step then (((stop - start) + step - 1).fdiv step).toNat
  else (((start - stop) + (-step) - 1).fdiv (-step)).toNat

/-- Models Python 2's builtin `range(start, stop, step)`, which returns the
list `[start, start + step, start + 2*step, ...]` of `pyRangeLen` elements;
a zero step raises `ValueError`. -/
def pyRange (start stop step : Int) : Except PyErr (List Int) :=
  if step = 0 then .error .valueError
  else .ok ((List.range (pyRangeLen start stop step)).map (fun i : Nat => start + step * (i : Int)))

/-- Models `SlicingOperation.set_slices(start, end, step, num)`:

    if step is None:
        s = (end - start) / num
        self._slices = range(start, end + 1, s)
    elif num is None:
        self._slices = range(start, end + 1, step)
    else:
        raise RuntimeError()

With `step = None` and `num = None` the first branch is taken and
`(end - start) / None` raises `TypeError`; with `num = 0` it raises
`ZeroDivisionError`; Python 2's `/` on integers is floor division. -/
def set_slices (start end_ : Int) (step num : Option Int) : Except PyErr (List Int) :=
  match step, num with
  | none, none => .error .typeError
  | none, some n =>
      if n = 0 then .error .zeroDivisionError
      else pyRange start (end_ + 1) ((end_ - start).fdiv n)
  | some st, none => pyRange start (end_ + 1) st
  | some _, some _ => .error .runtimeError


/-- Models Python's `'\n'.join(strs)`. -/
def joinLines : List String → String
  | [] => ""
  | [s] => s
  | s :: t :: rest => s ++ "\n" ++ joinLines (t :: rest)

/-- Models `self._scad_include_str.format(i)` where
`_scad_include_str = 'include <{0}>;'`. -/
def scadInclude (i : String) : String := "include <" ++ i ++ ">;"

/-- Portion of `SLICER_TEMPLATE` between `$import_str` and `$object_str`. -/
def tmplAfterImports : String :=
  "\nprojection(cut=true)\n\x7b\n  translate([0, 0, -LAYER_HEIGHT-0.001])\n  \x7b\n    difference()\n    \x7b\n      union()\n      \x7b\n        "

/-- Portion of `SLICER_TEMPLATE` between `$object_str` and `$key_str`. -/
def tmplBetweenUnions : String :=
  "\n      \x7d\n      union()\n      \x7b\n        "

/-- Portion of `SLICER_TEMPLATE` after `$key_str`. -/
def tmplTail : String :=
  "\n      \x7d\n    \x7d\n  \x7d\n\x7d\n"

/-- Models the composition in `_make_slice_file`: the import, object and key
strings are joined with newlines and substituted into `SLICER_TEMPLATE`
(which begins with a newline, then `$import_str` on its own line, then the
`projection`/`difference`/`union` skeleton). -/
def makeSliceContents (includes object_modules key_modules : List String) : String :=
  let import_str := joinLines (includes.map scadInclude)
  let object_str := joinLines (object_modules.map (fun m => m ++ ";"))
  let key_str := joinLines (key_modules.map (fun m => m ++ ";"))
  "\n" ++ import_str ++ tmplAfterImports ++ object_str ++ tmplBetweenUnions ++ key_str ++ tmplTail

/-- Models `SlicingOperation._make_slice_file`: the source performs no
validation whatsoever — it composes the text and writes it to
`self.scad_filename`, so it always succeeds and the contents written are
returned. -/
def make_slice_file (includes object_modules key_modules : List String) : Except PyErr String :=
  .ok (makeSliceContents includes object_modules key_modules)

/-- Opening-brace character, needed for `string.Template`'s `${name}` form. -/
def lbrace : Char := Char.ofNat 123

/-- Closing-brace character. -/
def rbrace : Char := Char.ofNat 125

/-- First character of a `string.Template` placeholder identifier
(default `idpattern`, case-insensitive): a letter or underscore. -/
def isIdStart (c : Char) : Bool := c.isAlpha || c = '_'

/-- Subsequent character of a `string.Template` placeholder identifier. -/
def isIdChar (c : Char) : Bool := c.isAlphanum || c = '_'

/-- Check of a braced placeholder name against `string.Template.idpattern`. -/
def validPlaceholderName (l : List Char) : Bool :=
  match l with
  | [] => false
  | c :: cs => isIdStart c && cs.all isIdChar

/-- Models the scan performed by `string.Template.substitute`: `$$` is an
escaped dollar, `$name` and the braced `$` + name form look the name up in
the supplied mapping (`KeyError` when absent), and a `$` followed by
anything else is an invalid placeholder (`ValueError`).  The `fuel`
argument only makes the recursion structural; every step consumes at least
one character, so passing the list length as fuel (as `substChars` does)
performs the full scan of the source. -/
def substCharsFuel (lookup : String → Option String) : Nat → List Char → Except PyErr (List Char)
  | _, [] => .ok []
  | 0, _ :: _ => .error .valueError
  | fuel + 1, c :: rest =>
    if c = '$' then
      match rest with
      | [] => .error .valueError
      | d :: rest2 =>
        if d = '$' then
          (fun t => '$' :: t) <$> substCharsFuel lookup fuel rest2
        else if d = lbrace then
          let name := rest2.takeWhile (fun x => x ≠ rbrace)
          match rest2.dropWhile (fun x => x ≠ rbrace) with
          | [] => .error .valueError
          | _ :: rest4 =>
            if validPlaceholderName name then
              match lookup (String.mk name) with
              | some v => (fun t => v.data ++ t) <$> substCharsFuel lookup fuel rest4
              | none => .error .keyError
            else .error .valueError
        else if isIdStart d then
          match lookup (String.mk (d :: rest2.takeWhile isIdChar)) with
          | some v =>
              (fun t => v.data ++ t) <$> substCharsFuel lookup fuel (rest2.dropWhile isIdChar)
          | none => .error .keyError
        else .error .valueError
    else
      (fun t => c :: t) <$> substCharsFuel lookup fuel rest

/-- Character scan of `string.Template.substitute`, with enough fuel. -/
def substChars (lookup : String → Option String) (l : List Char) : Except PyErr (List Char) :=
  substCharsFuel lookup l.length l

/-- Mapping supplied by `slice()`'s `out_format.substitute(height=h)`: only
the name `height` is bound, to Python's `str(h)`. -/
def heightLookup (h : Int) (name : String) : Option String :=
  if name = "height" then some (toString h) else none

/-- Models `string.Template(pattern).substitute(height=h)`. -/
def substituteHeight (pattern : String) (h : Int) : Except PyErr String :=
  (substChars (heightLookup h) pattern.data).map (fun l => String.mk l)


/-- Models `os.path.dirname` on a character list (posixpath): everything
before the final slash, with trailing slashes stripped from the head
unless the head consists only of slashes. -/
def dirnameChars (l : List Char) : List Char :=
  let tail := (l.reverse.takeWhile (fun c => c ≠ '/')).reverse
  let head := l.take (l.length - tail.length)
  if head.all (fun c => c = '/') then head
  else (head.reverse.dropWhile (fun c => c = '/')).reverse

/-- Models `os.path.dirname`. -/
def dirname (p : String) : String := String.mk (dirnameChars p.data)


/-- Models `os.path.exists` against an explicit list of existing
directories; in Python `os.path.exists('')` is always false. -/
def pathExists (dirs : List String) (p : String) : Bool :=
  (p != "") && dirs.contains p

/-- Models `os.makedirs(d)` on a writable filesystem: creating a nonempty
path (with intermediate directories) succeeds, while `os.makedirs('')`
raises `OSError` (no such file or directory). -/
def makedirs (d : String) : Except PyErr String :=
  if d = "" then .error .osError else .ok d

/-- Models `SlicingOperation._make_output_dir`: take the dirname of the
output format and create it if it does not already exist. -/
def make_output_dir (dirs : List String) (out_format : String) : Except PyErr String :=
  let out_dir := dirname out_format
  if pathExists dirs out_dir then .ok out_dir else makedirs out_dir

/-- Configuration state of a `SlicingOperation` instance: the attribute
fields set in `__init__` plus `slices`, holding `self._slices` as set by
`set_slices`. -/
structure SlicingOperation where
  scad_includes : List String
  scad_object_modules : List String
  scad_key_modules : List String
  keep_scad_file : Bool
  scad_filename : String
  out_format : String
  openscad_command : String
  processes : Nat
  slices : List Int

/-- Outcome of attempting to launch the renderer subprocess. -/
inductive RunOutcome where
  | launchFailure
  | exited (code : Int)
  deriving DecidableEq, Repr

/-- External-effect oracle for one `slice()` run: which directories exist,
how each subprocess invocation behaves, and whether `os.remove` of the
template file succeeds. -/
structure World where
  dirs : List String
  run : List String → RunOutcome
  removeOk : Bool

/-- One dispatched job, as built in `slice()`:
`(scad_file, height, output_file, openscad)`. -/
abbrev SliceJob := String × Int × String × String

/-- Command line built by `execute_slice`:
`[openscad, "-DLAYER_HEIGHT=" + str(height), "-o", output_file, scad_file]`. -/
def sliceCommand (job : SliceJob) : List String :=
  [job.2.2.2, "-DLAYER_HEIGHT=" ++ toString job.2.1, "-o", job.2.2.1, job.1]

/-- Models `execute_slice(args)`: the renderer is run with
`subprocess.check_call`; a non-zero exit status raises
`CalledProcessError`, which the surrounding `except` clause catches and
logs, so the function returns normally; a failure to launch the process
raises `OSError`, which nothing catches. -/
def execute_slice (run : List String → RunOutcome) (job : SliceJob) : Except PyErr Unit :=
  match run (sliceCommand job) with
  | .launchFailure => .error .osError
  | .exited _ => .ok ()

/-- Parent-visible outcome of `multiprocessing.Pool.map` over a list of
task outcomes: when no task raises, the parent receives all results; when
some task raises, `map` re-raises an exception in the parent.  Which
failing task's exception wins is racy in the real chunked pool — `mapstar`
runs a chunk sequentially and stops at its first uncaught exception, and
`map` re-raises on the first failed chunk without waiting — but every
per-job exception in this embedding is `osError`, so the re-raised
exception is determined even though the winning task is not. -/
def firstException : List (Except PyErr Unit) → Except PyErr (List Unit)
  | [] => .ok []
  | .ok _ :: rest => (fun l => () :: l) <$> firstException rest
  | .error e :: _ => .error e

/-- Models the parent-visible outcome of `pool.map(execute_slice, jobs)`.
Evaluating `execute_slice` on every job is a device to decide whether some
job fails and to collect the results of an all-success run; it is not a
claim that the real pool executes jobs queued behind a failure (chunked
dispatch may skip them, and pool teardown kills queued tasks once the
parent raises).  The outcome coincides with the real one: `Pool.map`
returns all results exactly when no task raises, and otherwise re-raises
one of the failed tasks' exceptions — all of them `osError` here. -/
def pool_map (f : SliceJob → Except PyErr Unit) (jobs : List SliceJob) : Except PyErr (List Unit) :=
  firstException (jobs.map f)

/-- Models the job-list comprehension in `slice()`: one job per height, the
output path obtained from `out_format.substitute(height=h)` (whose
exceptions propagate, aborting the comprehension). -/
def build_jobs (op : SlicingOperation) : Except PyErr (List SliceJob) :=
  op.slices.mapM (fun h =>
    (substituteHeight op.out_format h).map
      (fun out => (op.scad_filename, h, out, op.openscad_command)))

/-- Observable effects of one `slice()` run: the output directory ensured,
the template contents written to disk, the job list dispatched, the
modelled task outcomes from which the dispatch result is computed (real
chunked dispatch may skip jobs queued behind a failure, so on a failure
path this list is the modelling device of `pool_map`, not an execution
guarantee), and whether the template file was removed at the end.
Fields are `none`/empty when the corresponding step never executed. -/
structure SliceTrace where
  madeDir : Option String
  wroteTemplate : Option String
  jobs : List SliceJob
  results : List (Except PyErr Unit)
  removedTemplate : Bool
  deriving DecidableEq, Repr

/-- Models `SlicingOperation.slice()` step by step: prepare the output
directory, write the template file, build the job list, dispatch it with
`pool.map`, then remove the template unless `keep_scad_file` is set
(`os.remove` is not wrapped in any handler, so its failure propagates).
The second component is the uncaught exception, if any. -/
def SlicingOperation.slice (op : SlicingOperation) (w : World) : SliceTrace × Option PyErr :=
  match make_output_dir w.dirs op.out_format with
  | .error e => (⟨none, none, [], [], false⟩, some e)
  | .ok d =>
    let contents := makeSliceContents op.scad_includes op.scad_object_modules op.scad_key_modules
    match build_jobs op with
    | .error e => (⟨some d, some contents, [], [], false⟩, some e)
    | .ok jobs =>
      let results := jobs.map (execute_slice w.run)
      match firstException results with
      | .error e => (⟨some d, some contents, jobs, results, false⟩, some e)
      | .ok _ =>
        if op.keep_scad_file then (⟨some d, some contents, jobs, results, false⟩, none)
        else if w.removeOk then (⟨some d, some contents, jobs, results, true⟩, none)
        else (⟨some d, some contents, jobs, results, false⟩, some .osError)

/-! Section: Claims about `set_slices` -/

/-- Unfolding of the `step` branch of `set_slices` to the explicit list. -/
theorem set_slices_step_eq (start e step : Int) (h : step ≠ 0) :
    set_slices start e (some step) none =
      .ok ((List.range (pyRangeLen start (e + 1) step)).map
        (fun i : Nat => start + step * (i : Int))) := by
  simp [set_slices, pyRange, h]

/-- Closed form of `pyRangeLen` for a positive step, in Euclidean division. -/
theorem pyRangeLen_pos (start stop step : Int) (h : 0 < step) :
    pyRangeLen start stop step = ((stop - 1 - start) / step + 1).toNat := by
  unfold pyRangeLen
  rw [if_pos h, Int.fdiv_eq_ediv _ (le_of_lt h)]
  congr 1
  have h1 : stop - start + step - 1 = (stop - 1 - start) + 1 * step := by ring
  rw [h1, Int.add_mul_ediv_right _ _ (ne_of_gt h)]

/-- C1 counterexample: with neither `step` nor `num` supplied, `set_slices`
takes the `step is None` branch and `(end - start) / None` raises
`TypeError`, not the explicit `RuntimeError` that plays the role of the
spec's `ConfigurationError`. -/
theorem claim1_counterexample :
    set_slices 0 1 none none = .error .typeError ∧
    set_slices 0 1 none none ≠ .error .runtimeError := by decide

/-- C1 (amended): supplying both `step` and `num` raises the explicit
`RuntimeError` (the code's configuration error); supplying neither raises
a `TypeError` from dividing by `None`; a height sequence is produced only
when exactly one of the two is given. -/
theorem claim1_amended (start e st n : Int) :
    set_slices start e (some st) (some n) = .error .runtimeError ∧
    set_slices start e none none = .error .typeError ∧
    ∀ (step num : Option Int) (l : List Int),
      set_slices start e step num = .ok l →
        (step.isSome ∧ num = none) ∨ (step = none ∧ num.isSome) := by
  refine ⟨rfl, rfl, ?_⟩
  intro step num l h
  match step, num with
  | none, none => simp [set_slices] at h
  | none, some _ => exact .inr ⟨rfl, rfl⟩
  | some _, none => exact .inl ⟨rfl, rfl⟩
  | some _, some _ => simp [set_slices] at h

/-- C1 amended witness at concrete inputs. -/
theorem claim1_amended_witness :
    set_slices 0 10 (some 2) (some 3) = .error .runtimeError ∧
    set_slices 0 10 none none = .error .typeError :=
  ⟨(claim1_amended 0 10 2 3).1, (claim1_amended 0 10 2 3).2.1⟩

/-- C2: for integer `start ≤ end` and positive `step`, the `step` branch of
`set_slices` produces `start, start + step, start + 2*step, …`, strictly
increasing, starting at `start`, bounded by `end`, and containing `end`
itself whenever `step` divides `end - start`. -/
theorem claim2_step_sequence (start e step : Int) (hstep : 0 < step) (hse : start ≤ e) :
    ∃ l, set_slices start e (some step) none = .ok l ∧
      l.head? = some start ∧
      l.Pairwise (· < ·) ∧
      (∀ x ∈ l, x ≤ e) ∧
      (∀ x ∈ l, ∃ i : Nat, x = start + step * i) ∧
      (step ∣ e - start → e ∈ l) := by
  have hne : step ≠ 0 := ne_of_gt hstep
  have hq0 : 0 ≤ (e - start) / step := Int.ediv_nonneg (by omega) (le_of_lt hstep)
  have hlen : pyRangeLen start (e + 1) step = ((e - start) / step).toNat + 1 := by
    rw [pyRangeLen_pos _ _ _ hstep]
    have h1 : e + 1 - 1 - start = e - start := by ring
    rw [h1]
    omega
  refine ⟨_, set_slices_step_eq start e step hne, ?_, ?_, ?_, ?_, ?_⟩
  · rw [hlen, List.range_succ_eq_map]
    simp
  · refine List.Pairwise.map _ ?_ (List.pairwise_lt_range _)
    intro a b hab
    have hab' : (a : Int) < b := by exact_mod_cast hab
    have h2 := mul_lt_mul_of_pos_left hab' hstep
    exact add_lt_add_left h2 start
  · intro x hx
    rw [List.mem_map] at hx
    obtain ⟨i, hi, rfl⟩ := hx
    rw [List.mem_range, hlen] at hi
    have hiq : (i : Int) ≤ (e - start) / step := by omega
    have h2 : step * (i : Int) ≤ step * ((e - start) / step) :=
      mul_le_mul_of_nonneg_left hiq (le_of_lt hstep)
    have h3 : (e - start) / step * step ≤ e - start := Int.ediv_mul_le _ hne
    have h4 : step * ((e - start) / step) ≤ e - start := by
      rw [mul_comm] at h3; exact h3
    linarith
  · intro x hx
    rw [List.mem_map] at hx
    obtain ⟨i, _, rfl⟩ := hx
    exact ⟨i, rfl⟩
  · intro hdvd
    have hq : (e - start) / step * step = e - start := Int.ediv_mul_cancel hdvd
    refine List.mem_map.mpr ⟨((e - start) / step).toNat, List.mem_range.mpr (by omega), ?_⟩
    have h5 : ((((e - start) / step).toNat : Nat) : Int) = (e - start) / step :=
      Int.toNat_of_nonneg hq0
    rw [h5]
    linarith [hq, mul_comm ((e - start) / step) step]

/-- C2 witness: `set_slices 0 10 4` produces `[0, 4, 8]` with all the
claimed properties. -/
theorem claim2_step_sequence_witness :
    ∃ l, set_slices 0 10 (some 4) none = .ok l ∧
      l.head? = some 0 ∧
      l.Pairwise (· < ·) ∧
      (∀ x ∈ l, x ≤ 10) ∧
      (∀ x ∈ l, ∃ i : Nat, x = 0 + 4 * i) ∧
      ((4 : Int) ∣ 10 - 0 → 10 ∈ l) :=
  claim2_step_sequence 0 10 4 (by decide) (by decide)

/-- C4: with `num` given and `step` not, `set_slices` derives the step as
`(end - start) / num` (Python 2 floor division) and runs the very same
`range` call as the `step` branch; concretely `start=0, end=100, num=4`
gives `[0, 25, 50, 75, 100]`. -/
theorem claim4_num_branch (start e n : Int) (hn : n ≠ 0) :
    set_slices start e none (some n) =
      set_slices start e (some ((e - start).fdiv n)) none ∧
    set_slices 0 100 none (some 4) = .ok [0, 25, 50, 75, 100] := by
  refine ⟨?_, by decide⟩
  simp [set_slices, hn]

/-- C4 witness at the concrete inputs from the spec. -/
theorem claim4_num_branch_witness :
    set_slices 0 100 none (some 4) =
      set_slices 0 100 (some ((100 - 0 : Int).fdiv 4)) none ∧
    set_slices 0 100 none (some 4) = .ok [0, 25, 50, 75, 100] :=
  claim4_num_branch 0 100 4 (by decide)

/-- C6 counterexample: `set_slices` performs no validation — with
`end = start` it silently returns `[start]`, with `end < start` it silently
returns `[]`, and a zero step raises `ValueError` from `range`, not the
explicit `RuntimeError` used for configuration errors. -/
theorem claim6_counterexample :
    set_slices 5 5 (some 2) none = .ok [5] ∧
    set_slices 5 0 (some 2) none = .ok [] ∧
    set_slices 0 10 (some 0) none = .error .valueError := by decide

/-- C6 (amended): `set_slices` never raises a configuration error for a
degenerate geometry — with a positive step and `end = start` it silently
returns `[start]`, with `end < start` it silently returns `[]`, a zero
step raises `ValueError` from `range`, and any negative step silently
returns a (possibly decreasing) sequence. -/
theorem claim6_amended (start e step : Int) (hstep : 0 < step) :
    (e = start → set_slices start e (some step) none = .ok [start]) ∧
    (e < start → set_slices start e (some step) none = .ok []) ∧
    set_slices start e (some 0) none = .error .valueError ∧
    (∀ st : Int, st < 0 → ∃ l, set_slices start e (some st) none = .ok l) := by
  have hne : step ≠ 0 := ne_of_gt hstep
  refine ⟨?_, ?_, by simp [set_slices, pyRange], fun st hst => ?_⟩
  · intro he
    rw [he, set_slices_step_eq _ _ _ hne, pyRangeLen_pos _ _ _ hstep]
    have h1 : start + 1 - 1 - start = 0 := by ring
    rw [h1, Int.zero_ediv]
    simp [List.range_succ]
  · intro he
    rw [set_slices_step_eq _ _ _ hne, pyRangeLen_pos _ _ _ hstep]
    have h2 : (e + 1 - 1 - start) / step < 0 := by
      rw [Int.ediv_lt_iff_lt_mul hstep, zero_mul]
      omega
    have h3 : ((e + 1 - 1 - start) / step + 1).toNat = 0 := by omega
    rw [h3]
    simp
  · exact ⟨_, set_slices_step_eq start e st (ne_of_lt hst)⟩

/-- C6 amended witness at concrete inputs. -/
theorem claim6_amended_witness :
    set_slices 0 0 (some 3) none = .ok [0] ∧
    set_slices 3 1 (some 2) none = .ok [] :=
  ⟨(claim6_amended 0 0 3 (by decide)).1 rfl,
   (claim6_amended 3 1 2 (by decide)).2.1 (by decide)⟩

/-! Section: Claims about template composition -/

/-- Containment survives surrounding context on both sides. -/
theorem segExtend {α : Type} {x m : List α} (p s : List α) (h : x <:+: m) :
    x <:+: p ++ m ++ s := by
  obtain ⟨u, v, rfl⟩ := h
  exact ⟨p ++ u, v ++ s, by simp⟩

/-- Any member of the joined list survives a newline join. -/
theorem joinLines_contains : ∀ (l : List String) (x : String),
    x ∈ l → x.data <:+: (joinLines l).data
  | [], x, hx => by cases hx
  | [s], x, hx => by
      rw [List.mem_singleton] at hx
      subst hx
      exact ⟨[], [], by simp [joinLines]⟩
  | s :: t :: rest, x, hx => by
      rcases List.mem_cons.mp hx with rfl | hx'
      · refine ⟨[], ("\n" ++ joinLines (t :: rest)).data, ?_⟩
        simp [joinLines]
      · have ih := joinLines_contains (t :: rest) x hx'
        have h2 := segExtend (s ++ "\n").data [] ih
        rw [List.append_nil] at h2
        simpa [joinLines] using h2

/-- Character-level decomposition of the composed template text. -/
theorem makeSliceContents_data (inc obj key : List String) :
    (makeSliceContents inc obj key).data =
      "\n".data ++ (joinLines (inc.map scadInclude)).data ++ tmplAfterImports.data ++
      (joinLines (obj.map (fun m => m ++ ";"))).data ++ tmplBetweenUnions.data ++
      (joinLines (key.map (fun m => m ++ ";"))).data ++ tmplTail.data := by
  simp [makeSliceContents]

/-- The template written by `slice()` — `none` exactly when the
output-directory step failed, and otherwise the composed text, whatever
happens later. -/
theorem slice_wroteTemplate (op : SlicingOperation) (w : World) :
    (op.slice w).1.wroteTemplate =
      match make_output_dir w.dirs op.out_format with
      | .error _ => none
      | .ok _ =>
          some (makeSliceContents op.scad_includes op.scad_object_modules op.scad_key_modules) := by
  unfold SlicingOperation.slice
  dsimp only
  split
  · rfl
  · split
    · rfl
    · split
      · rfl
      · split
        · rfl
        · split <;> rfl

/-- C7: the composed template imports every include reference, references
the height only through the external `LAYER_HEIGHT` parameter (the text is
identical whatever heights are configured), collects every object module
inside the first `union` block and every key module inside the second, and
the surrounding skeleton (the decomposition equation) computes
`difference(union(objects), union(keys))` inside the `projection` cut. -/
theorem claim7_template (includes objects keys : List String) :
    makeSliceContents includes objects keys =
      "\n" ++ joinLines (includes.map scadInclude) ++ tmplAfterImports ++
        joinLines (objects.map (fun m => m ++ ";")) ++ tmplBetweenUnions ++
        joinLines (keys.map (fun m => m ++ ";")) ++ tmplTail ∧
    (∀ i ∈ includes,
      ("include <" ++ i ++ ">;").data <:+: (makeSliceContents includes objects keys).data) ∧
    "LAYER_HEIGHT".data <:+: (makeSliceContents includes objects keys).data ∧
    (∀ m ∈ objects,
      (m ++ ";").data <:+: (joinLines (objects.map (fun x => x ++ ";"))).data) ∧
    (∀ m ∈ keys,
      (m ++ ";").data <:+: (joinLines (keys.map (fun x => x ++ ";"))).data) ∧
    (∀ (op : SlicingOperation) (w : World) (hs₁ hs₂ : List Int),
      (({ op with slices := hs₁ } : SlicingOperation).slice w).1.wroteTemplate =
      (({ op with slices := hs₂ } : SlicingOperation).slice w).1.wroteTemplate) := by
  refine ⟨rfl, ?_, ?_, ?_, ?_, ?_⟩
  · intro i hi
    have h1 : (scadInclude i).data <:+: (joinLines (includes.map scadInclude)).data :=
      joinLines_contains _ _ (List.mem_map_of_mem _ hi)
    have h2 := segExtend "\n".data
      (tmplAfterImports.data ++ (joinLines (objects.map (fun m => m ++ ";"))).data ++
        tmplBetweenUnions.data ++ (joinLines (keys.map (fun m => m ++ ";"))).data ++
        tmplTail.data) h1
    rw [makeSliceContents_data]
    simpa only [scadInclude, List.append_assoc] using h2
  · have h1 : ("LAYER_HEIGHT").data <:+: tmplAfterImports.data := by decide
    have h2 := segExtend
      ("\n".data ++ (joinLines (includes.map scadInclude)).data)
      ((joinLines (objects.map (fun m => m ++ ";"))).data ++ tmplBetweenUnions.data ++
        (joinLines (keys.map (fun m => m ++ ";"))).data ++ tmplTail.data) h1
    rw [makeSliceContents_data]
    simpa only [List.append_assoc] using h2
  · intro m hm
    exact joinLines_contains _ _ (List.mem_map_of_mem _ hm)
  · intro m hm
    exact joinLines_contains _ _ (List.mem_map_of_mem _ hm)
  · intro op w hs₁ hs₂
    rw [slice_wroteTemplate, slice_wroteTemplate]

/-- C7 witness at concrete lists. -/
theorem claim7_template_witness :
    ("include <lib.scad>;").data <:+:
      (makeSliceContents ["lib.scad"] ["cube()"] ["key()"]).data ∧
    ("cube();").data <:+: (joinLines (["cube()"].map (fun x => x ++ ";"))).data :=
  ⟨(claim7_template ["lib.scad"] ["cube()"] ["key()"]).2.1 "lib.scad" (by simp),
   (claim7_template ["lib.scad"] ["cube()"] ["key()"]).2.2.2.1 "cube()" (by simp)⟩

/-- C5 counterexample: with both module lists empty, `_make_slice_file`
does not fail — `slice()` composes the template (with empty union bodies)
and writes it to disk, completing without any error. -/
theorem claim5_counterexample :
    make_slice_file [] [] [] = .ok (makeSliceContents [] [] []) ∧
    makeSliceContents [] [] [] ≠ "" ∧
    ((⟨[], [], [], false, "object_slice.scad", "out/slice_$height.dxf",
        "openscad", 4, [0]⟩ : SlicingOperation).slice
      ⟨["out"], fun _ => .exited 0, true⟩).2 = none ∧
    ((⟨[], [], [], false, "object_slice.scad", "out/slice_$height.dxf",
        "openscad", 4, [0]⟩ : SlicingOperation).slice
      ⟨["out"], fun _ => .exited 0, true⟩).1.wroteTemplate =
      some (makeSliceContents [] [] []) := by
  refine ⟨rfl, by decide, by decide, by decide⟩

/-- C5 (amended): template composition performs no validation —
`_make_slice_file` always succeeds, writing the composed text even with
both module lists empty, and the template file is created whenever the
output-directory step succeeds. -/
theorem claim5_amended :
    (∀ inc obj key : List String,
      make_slice_file inc obj key = .ok (makeSliceContents inc obj key)) ∧
    ∀ (op : SlicingOperation) (w : World) (d : String),
      make_output_dir w.dirs op.out_format = .ok d →
      (op.slice w).1.wroteTemplate =
        some (makeSliceContents op.scad_includes op.scad_object_modules op.scad_key_modules) := by
  refine ⟨fun _ _ _ => rfl, fun op w d hd => ?_⟩
  rw [slice_wroteTemplate, hd]

/-- C5 amended witness at concrete inputs. -/
theorem claim5_amended_witness :
    make_slice_file [] [] [] = .ok (makeSliceContents [] [] []) ∧
    ((⟨[], [], [], false, "object_slice.scad", "out/slice_$height.dxf",
        "openscad", 4, [0]⟩ : SlicingOperation).slice
      ⟨["out"], fun _ => .exited 0, true⟩).1.wroteTemplate =
      some (makeSliceContents [] [] []) :=
  ⟨claim5_amended.1 [] [] [], claim5_amended.2 _ _ "out" (by decide)⟩

/-! Section: Claims about the output pattern and the output directory -/

/-- Scanning a character list without any dollar sign copies it verbatim. -/
theorem substCharsFuel_no_dollar (lookup : String → Option String) :
    ∀ (fuel : Nat) (l : List Char), l.length ≤ fuel → '$' ∉ l →
      substCharsFuel lookup fuel l = .ok l := by
  intro fuel
  induction fuel with
  | zero =>
    intro l hl _
    cases l with
    | nil => rfl
    | cons c rest => simp at hl
  | succ n ih =>
    intro l hl hd
    cases l with
    | nil => rfl
    | cons c rest =>
      have hc : ¬(c = '$') := fun h => hd (h ▸ List.mem_cons_self c rest)
      have hrest : rest.length ≤ n := by simp at hl; omega
      simp only [substCharsFuel, if_neg hc]
      rw [ih rest hrest (fun h => hd (List.mem_cons_of_mem c h))]
      rfl

/-- Substitution on a pattern with no placeholder at all returns the
pattern unchanged (and in particular raises nothing). -/
theorem substituteHeight_no_dollar (pat : String) (h : Int) (hd : '$' ∉ pat.data) :
    substituteHeight pat h = .ok pat := by
  unfold substituteHeight substChars
  rw [substCharsFuel_no_dollar _ _ _ le_rfl hd]
  rfl

/-- Mapping a pure function through `mapM` in `Except` never fails. -/
theorem mapM_ok {α β : Type} (f : α → β) : ∀ l : List α,
    (l.mapM (fun a => (Except.ok (f a) : Except PyErr β))) = .ok (l.map f)
  | [] => rfl
  | a :: rest => by
    rw [List.mapM_cons, mapM_ok f rest]
    rfl

/-- C9 counterexample: a pattern with no height-substitution marker is not
rejected — `slice()` builds one job per height and every job carries the
identical output path `out/slice.dxf`; the full run completes without any
error. -/
theorem claim9_counterexample :
    build_jobs ⟨[], ["cube()"], [], false, "object_slice.scad", "out/slice.dxf",
        "openscad", 4, [0, 5]⟩ =
      .ok [("object_slice.scad", 0, "out/slice.dxf", "openscad"),
           ("object_slice.scad", 5, "out/slice.dxf", "openscad")] ∧
    ((⟨[], ["cube()"], [], false, "object_slice.scad", "out/slice.dxf",
        "openscad", 4, [0, 5]⟩ : SlicingOperation).slice
      ⟨["out"], fun _ => .exited 0, true⟩).2 = none := by
  refine ⟨by decide, by decide⟩

/-- C9 (amended): the output pattern is never validated — a pattern
containing no placeholder substitutes to itself for every height, so
`slice()` builds one job per height all sharing the identical output path,
and no configuration error is raised. -/
theorem claim9_amended (op : SlicingOperation) (hd : '$' ∉ op.out_format.data) :
    (∀ h : Int, substituteHeight op.out_format h = .ok op.out_format) ∧
    build_jobs op =
      .ok (op.slices.map (fun h => (op.scad_filename, h, op.out_format, op.openscad_command))) := by
  refine ⟨fun h => substituteHeight_no_dollar _ h hd, ?_⟩
  unfold build_jobs
  have hsub : ∀ h : Int,
      (substituteHeight op.out_format h).map
        (fun out => ((op.scad_filename, h, out, op.openscad_command) : SliceJob)) =
      .ok (op.scad_filename, h, op.out_format, op.openscad_command) := by
    intro h
    rw [substituteHeight_no_dollar _ h hd]
    rfl
  calc op.slices.mapM (fun h =>
        (substituteHeight op.out_format h).map
          (fun out => (op.scad_filename, h, out, op.openscad_command)))
      = op.slices.mapM (fun h =>
          (Except.ok (op.scad_filename, h, op.out_format, op.openscad_command) :
            Except PyErr SliceJob)) := by
        exact congrArg (fun g => List.mapM g op.slices) (funext hsub)
    _ = .ok (op.slices.map
          (fun h => (op.scad_filename, h, op.out_format, op.openscad_command))) :=
        mapM_ok _ _

/-- C9 amended witness at a concrete pattern. -/
theorem claim9_amended_witness :
    substituteHeight "out/slice.dxf" 7 = .ok "out/slice.dxf" ∧
    build_jobs ⟨[], ["cube()"], [], false, "s.scad", "out/slice.dxf", "openscad", 4, [0, 5]⟩ =
      .ok (([0, 5] : List Int).map (fun h => ("s.scad", h, "out/slice.dxf", "openscad"))) :=
  ⟨(claim9_amended ⟨[], ["cube()"], [], false, "s.scad", "out/slice.dxf", "openscad", 4,
      [0, 5]⟩ (by decide)).1 7,
   (claim9_amended ⟨[], ["cube()"], [], false, "s.scad", "out/slice.dxf", "openscad", 4,
      [0, 5]⟩ (by decide)).2⟩

/-- Dirname of a path with no slash is the empty string. -/
theorem dirname_no_slash (p : String) (h : ∀ c ∈ p.data, c ≠ '/') : dirname p = "" := by
  unfold dirname dirnameChars
  have h1 : p.data.reverse.takeWhile (fun c => c ≠ '/') = p.data.reverse := by
    rw [List.takeWhile_eq_self_iff]
    intro x hx
    simpa using h x (List.mem_reverse.mp hx)
  rw [h1, List.reverse_reverse]
  simp

/-- C10: an output pattern with no directory component makes `slice()`
raise an uncaught `OSError` from `_make_output_dir` — the empty dirname
fails the `os.path.exists` check and `os.makedirs('')` fails — before the
template is written or any job is built or dispatched. -/
theorem claim10_no_dir_component (op : SlicingOperation) (w : World)
    (h : ∀ c ∈ op.out_format.data, c ≠ '/') :
    op.slice w = (⟨none, none, [], [], false⟩, some .osError) := by
  have hd : make_output_dir w.dirs op.out_format = .error .osError := by
    unfold make_output_dir
    rw [dirname_no_slash _ h]
    simp [pathExists, makedirs]
  unfold SlicingOperation.slice
  rw [hd]

/-- C10 witness: the default-style pattern `slice_$height.dxf` with no
directory part aborts the whole run with `OSError` and an empty trace. -/
theorem claim10_no_dir_component_witness :
    ((⟨[], ["cube()"], [], false, "object_slice.scad", "slice_$height.dxf",
        "openscad", 4, [0]⟩ : SlicingOperation).slice
      ⟨[], fun _ => .exited 0, true⟩) = (⟨none, none, [], [], false⟩, some .osError) :=
  claim10_no_dir_component _ _ (by decide)

/-! Section: Claims about dispatch and cleanup -/

/-- Dispatch of jobs whose renderer always launches (with any exit code)
returns normally with one result per job. -/
theorem pool_map_all_launch (run : List String → RunOutcome) :
    ∀ jobs : List SliceJob,
      (∀ j ∈ jobs, ∃ c, run (sliceCommand j) = .exited c) →
      pool_map (execute_slice run) jobs = .ok (jobs.map (fun _ => ()))
  | [], _ => rfl
  | j :: rest, hall => by
    obtain ⟨c, hc⟩ := hall j (List.mem_cons_self j rest)
    have hj : execute_slice run j = .ok () := by
      unfold execute_slice
      rw [hc]
    have ih := pool_map_all_launch run rest
      (fun x hx => hall x (List.mem_cons_of_mem j hx))
    unfold pool_map at ih ⊢
    simp only [List.map_cons, firstException, hj, ih]
    rfl

/-- Dispatch of a job list containing a launch failure re-raises `OSError`
out of `pool.map`. -/
theorem pool_map_launch_failure (run : List String → RunOutcome) :
    ∀ jobs : List SliceJob,
      (∃ j ∈ jobs, run (sliceCommand j) = .launchFailure) →
      pool_map (execute_slice run) jobs = .error .osError
  | [], h => by simp at h
  | j :: rest, h => by
    by_cases hj : run (sliceCommand j) = .launchFailure
    · have hje : execute_slice run j = .error .osError := by
        unfold execute_slice
        rw [hj]
      unfold pool_map
      simp [firstException, hje]
    · have hj' : execute_slice run j = .ok () := by
        unfold execute_slice
        cases hrun : run (sliceCommand j) with
        | launchFailure => exact absurd hrun hj
        | exited c => rfl
      obtain ⟨x, hx, hx2⟩ := h
      rcases List.mem_cons.mp hx with rfl | hx'
      · exact absurd hx2 hj
      · have ih := pool_map_launch_failure run rest ⟨x, hx', hx2⟩
        unfold pool_map at ih ⊢
        simp only [List.map_cons, firstException, hj', ih]
        rfl

/-- C3 counterexample: one job whose renderer fails to launch makes the
dispatch itself raise `OSError` — `pool.map` re-raises it, and `slice()`
lets it escape — contradicting that a job failure never raises out of the
dispatch. -/
theorem claim3_counterexample :
    pool_map (execute_slice (fun _ => .launchFailure))
        [("object_slice.scad", 0, "out/slice_0.dxf", "openscad")] = .error .osError ∧
    ((⟨[], ["cube()"], [], false, "object_slice.scad", "out/slice_$height.dxf",
        "openscad", 4, [0]⟩ : SlicingOperation).slice
      ⟨["out"], fun _ => .launchFailure, true⟩).2 = some .osError := by
  refine ⟨by decide, by decide⟩

/-- C3 (amended): a renderer that launches and exits non-zero is caught
inside the job (`CalledProcessError` is logged), so a batch whose renderer
always launches completes the dispatch normally with one result per job
however the exit statuses fall; but a renderer that fails to launch raises
an uncaught `OSError` that `pool.map` re-raises in the parent and out of
`slice()` — and the code gives no guarantee that jobs queued behind such a
failure are still executed (chunked dispatch may skip them). -/
theorem claim3_amended (run : List String → RunOutcome) (jobs : List SliceJob) :
    ((∀ j ∈ jobs, ∃ c, run (sliceCommand j) = .exited c) →
      pool_map (execute_slice run) jobs = .ok (jobs.map (fun _ => ()))) ∧
    ((∃ j ∈ jobs, run (sliceCommand j) = .launchFailure) →
      pool_map (execute_slice run) jobs = .error .osError) ∧
    (∀ (j : SliceJob) (c : Int), c ≠ 0 → run (sliceCommand j) = .exited c →
      execute_slice run j = .ok ()) := by
  refine ⟨pool_map_all_launch run jobs, pool_map_launch_failure run jobs, ?_⟩
  intro j c _ hc
  unfold execute_slice
  rw [hc]

/-- C3 amended witness at concrete jobs and renderer behaviours. -/
theorem claim3_amended_witness :
    pool_map (execute_slice (fun _ => .exited 1))
        [(("object_slice.scad" : String), (0 : Int), "out/slice_0.dxf", "openscad")] =
      .ok ([(("object_slice.scad" : String), (0 : Int), "out/slice_0.dxf", "openscad")].map
        (fun _ => ())) ∧
    pool_map (execute_slice (fun _ => .launchFailure))
        [(("object_slice.scad" : String), (0 : Int), "out/slice_0.dxf", "openscad")] =
      .error .osError :=
  ⟨(claim3_amended (fun _ => .exited 1) _).1 (fun _ _ => ⟨1, rfl⟩),
   (claim3_amended (fun _ => .launchFailure) _).2.1
     ⟨("object_slice.scad", 0, "out/slice_0.dxf", "openscad"),
      List.mem_cons_self _ _, rfl⟩⟩

/-- C8 counterexample: when the retain flag is off and `os.remove` fails,
`slice()` raises the `OSError` — the deletion is not wrapped in any
handler, so the failure is not merely logged. -/
theorem claim8_counterexample :
    ((⟨[], ["cube()"], [], false, "object_slice.scad", "out/slice_$height.dxf",
        "openscad", 4, [0]⟩ : SlicingOperation).slice
      ⟨["out"], fun _ => .exited 0, false⟩).2 = some .osError := by decide

/-- C8 (amended): once dispatch has completed, `slice()` leaves the
template in place when `keep_scad_file` is set, removes it when removal
succeeds, and otherwise lets the `OSError` from `os.remove` propagate out
of `slice()` uncaught (nothing downgrades it to a logged warning). -/
theorem claim8_amended (op : SlicingOperation) (w : World) (d : String)
    (jobs : List SliceJob) (rs : List Unit)
    (hdir : make_output_dir w.dirs op.out_format = .ok d)
    (hjobs : build_jobs op = .ok jobs)
    (hdisp : firstException (jobs.map (execute_slice w.run)) = .ok rs) :
    (op.keep_scad_file = true →
      (op.slice w).2 = none ∧ (op.slice w).1.removedTemplate = false) ∧
    (op.keep_scad_file = false → w.removeOk = true →
      (op.slice w).2 = none ∧ (op.slice w).1.removedTemplate = true) ∧
    (op.keep_scad_file = false → w.removeOk = false →
      (op.slice w).2 = some .osError ∧ (op.slice w).1.removedTemplate = false) := by
  unfold SlicingOperation.slice
  simp only [hdir, hjobs, hdisp]
  refine ⟨fun hk => ?_, fun hk hr => ?_, fun hk hr => ?_⟩
  · simp [hk]
  · simp [hk, hr]
  · simp [hk, hr]

/-- C8 amended witness at concrete configurations. -/
theorem claim8_amended_witness :
    (((⟨[], ["cube()"], [], true, "object_slice.scad", "out/slice_$height.dxf",
        "openscad", 4, [0]⟩ : SlicingOperation).slice
      ⟨["out"], fun _ => .exited 0, false⟩).2 = none ∧
     ((⟨[], ["cube()"], [], true, "object_slice.scad", "out/slice_$height.dxf",
        "openscad", 4, [0]⟩ : SlicingOperation).slice
      ⟨["out"], fun _ => .exited 0, false⟩).1.removedTemplate = false) ∧
    ((⟨[], ["cube()"], [], false, "object_slice.scad", "out/slice_$height.dxf",
        "openscad", 4, [0]⟩ : SlicingOperation).slice
      ⟨["out"], fun _ => .exited 0, false⟩).2 = some .osError :=
  ⟨(claim8_amended ⟨[], ["cube()"], [], true, "object_slice.scad", "out/slice_$height.dxf",
      "openscad", 4, [0]⟩ ⟨["out"], fun _ => .exited 0, false⟩ "out"
      [("object_slice.scad", 0, "out/slice_0.dxf", "openscad")] [()]
      (by decide) (by decide) (by decide)).1 rfl,
   ((claim8_amended ⟨[], ["cube()"], [], false, "object_slice.scad", "out/slice_$height.dxf",
      "openscad", 4, [0]⟩ ⟨["out"], fun _ => .exited 0, false⟩ "out"
      [("object_slice.scad", 0, "out/slice_0.dxf", "openscad")] [()]
      (by decide) (by decide) (by decide)).2.2 rfl rfl).1⟩

end ObjectSlice
